import Mathlib

/-!
Verification development for the multi-agent runtime repository.

The definitions below are a shallow embedding of the Python source:

  * src/messaging/message.py   — Message, to_dict, serialize, deserialize
  * src/messaging/router.py    — MessageRouter.route_message
  * src/agents/agent_impl.py   — BasicAgent.handle_message
  * src/agents/task_engine.py  — Task, TaskStatus, TaskEngine and its handlers
  * src/agents/task_planner.py — RoundRobinAllocation.allocate
  * src/agents/collaboration.py — ConsensusMechanism._calculate_consensus_result

Modelling conventions, chosen once and used throughout:

  * JSON-serialisable Python values are the inductive type JVal; a Python
    dict with string keys is an association list (DictVal).
  * Python objects live on a heap; dict identity (aliasing vs. copying)
    is observable.  A dict object is therefore a pair of its value and an
    object identifier (DictObj); copying allocates a fresh identifier with
    the same value, passing a reference preserves the identifier.
  * uuid.uuid4() draws and datetime.now()/time.time() reads are supplied
    by an explicit World record threaded through every constructor call:
    nextUuid is the next fresh uuid (uuids are modelled as the naturals,
    drawn in increasing order, hence fresh), now is the current clock
    reading, nextObj is the next fresh dict-object identifier.
  * A Python function that can raise returns Except String.
  * json.dumps followed by json.loads is the identity on the dictionaries
    produced by Message.to_dict, so the serialized wire form is embedded
    as the dictionary itself (MsgDict).
-/

/-- A JSON-serialisable Python value. -/
inductive JVal where
  | null : JVal
  | bool (b : Bool) : JVal
  | num (n : Int) : JVal
  | str (s : String) : JVal
  | arr (xs : List JVal) : JVal
  | obj (fs : List (String × JVal)) : JVal

/-- A Python dict with string keys, as an ordered association list. -/
abbrev DictVal := List (String × JVal)

/-- Python dict assignment d[k] = v: replace in place if the key exists
(Python dicts preserve insertion order), otherwise append. -/
def dictInsert {β : Type} (k : String) (v : β) : List (String × β) → List (String × β)
  | [] => [(k, v)]
  | (k0, v0) :: rest => if k0 = k then (k0, v) :: rest else (k0, v0) :: dictInsert k v rest

/-- Python dict lookup d.get(k) at the key level: first (only) binding of
the key, none when absent. -/
def dictLookup {β : Type} (d : List (String × β)) (k : String) : Option β :=
  match d with
  | [] => none
  | (k0, v0) :: rest => if k0 = k then some v0 else dictLookup rest k

/-- A Python dict object: its value together with its heap identity.
Two DictObj with the same objId are the same Python object; a copy has a
fresh objId and the same val. -/
structure DictObj where
  val : DictVal
  objId : Nat

/-- The ambient supply of fresh uuids, clock readings and fresh object
identities consumed by constructor calls. -/
structure World where
  nextUuid : Nat
  now : Nat
  nextObj : Nat

/-- Draw one fresh uuid. -/
def World.drawUuid (w : World) : Nat × World :=
  (w.nextUuid, { w with nextUuid := w.nextUuid + 1 })

/-- Allocate a fresh dict object holding the given value. -/
def World.allocDict (w : World) (v : DictVal) : DictObj × World :=
  (⟨v, w.nextObj⟩, { w with nextObj := w.nextObj + 1 })

/-- Message, from src/messaging/message.py (class Message).  Field names
follow the source; uuids and timestamps are naturals per the World
conventions, content and metadata are dict objects with observable
identity. -/
structure Message where
  message_id : Nat
  sender_id : String
  receiver_id : String
  msg_type : String
  content : DictObj
  timestamp : Nat
  priority : Nat
  conversation_id : Nat
  metadata : DictObj

/-- Message.__init__ from src/messaging/message.py.  Validates sender,
receiver and content; draws a fresh uuid for message_id, stamps the
current time; conversation_id is the given one or a second fresh uuid;
a missing or empty metadata dict is replaced by a freshly allocated empty
dict (Python:  self.metadata = metadata or \x7b\x7d  — an empty dict is
falsy, so it too is replaced by a fresh empty dict). -/
def Message.init (w : World) (sender_id receiver_id msg_type : String)
    (content : DictObj) (priority : Nat) (conversation_id : Option Nat)
    (metadata : Option DictObj) : Except String (Message × World) :=
  if sender_id = "" ∨ receiver_id = "" then
    .error "sender_id and receiver_id cannot be empty"
  else if content.val.isEmpty then
    .error "content must be a non-empty dictionary"
  else
    let (mid, w1) := w.drawUuid
    let (cid, w2) := match conversation_id with
      | some c => (c, w1)
      | none => w1.drawUuid
    let (md, w3) := match metadata with
      | some d => if d.val.isEmpty then w2.allocDict [] else (d, w2)
      | none => w2.allocDict []
    .ok ({ message_id := mid, sender_id := sender_id, receiver_id := receiver_id,
           msg_type := msg_type, content := content, timestamp := w.now,
           priority := priority, conversation_id := cid, metadata := md }, w3)

/-- The dictionary form produced by Message.to_dict: the nine wire fields,
dict identities dropped (to_dict exposes values). -/
structure MsgDict where
  message_id : Nat
  sender_id : String
  receiver_id : String
  msg_type : String
  content : DictVal
  timestamp : Nat
  priority : Nat
  conversation_id : Nat
  metadata : DictVal

/-- Message.to_dict from src/messaging/message.py. -/
def Message.to_dict (m : Message) : MsgDict :=
  { message_id := m.message_id, sender_id := m.sender_id,
    receiver_id := m.receiver_id, msg_type := m.msg_type,
    content := m.content.val, timestamp := m.timestamp,
    priority := m.priority, conversation_id := m.conversation_id,
    metadata := m.metadata.val }

/-- Message.serialize: json.dumps(self.to_dict()); the JSON text is
faithful to the dictionary, so the wire form is the dictionary. -/
def Message.serialize (m : Message) : MsgDict :=
  m.to_dict

/-- Message.deserialize from src/messaging/message.py: json.loads builds
fresh dict objects for content and metadata, then the constructor is
called with sender_id, receiver_id, msg_type, content, priority
(defaulting to 2 when absent — always present in a serialized message),
conversation_id and metadata from the data.  The serialized message_id
and timestamp fields are not passed to the constructor. -/
def Message.deserialize (data : MsgDict) (w : World) : Except String (Message × World) :=
  let (contentObj, w1) := w.allocDict data.content
  let (metadataObj, w2) := w1.allocDict data.metadata
  Message.init w2 data.sender_id data.receiver_id data.msg_type contentObj
    data.priority (some data.conversation_id) (some metadataObj)

/-- A concrete valid message used by concrete-input theorems: built by the
constructor from World 0/0/0 with content having one entry. -/
def sampleContent : DictVal := [("k", JVal.str "v")]

/-- The constructor call Message("alice", "bob", "task", sampleContent,
priority 2, no conversation id, no metadata) at World ⟨0, 0, 0⟩. -/
def sampleInit : Except String (Message × World) :=
  Message.init ⟨0, 0, 0⟩ "alice" "bob" "task" ⟨sampleContent, 0⟩ 2 none none

/-- The message produced by sampleInit (total projection for statements). -/
def sampleMsg : Message :=
  match sampleInit with
  | .ok (m, _) => m
  | .error _ => { message_id := 0, sender_id := "", receiver_id := "",
                  msg_type := "", content := ⟨[], 0⟩, timestamp := 0,
                  priority := 0, conversation_id := 0, metadata := ⟨[], 0⟩ }

/-- The world after sampleInit. -/
def sampleWorld : World :=
  match sampleInit with
  | .ok (_, w) => w
  | .error _ => ⟨0, 0, 0⟩

/-- The round trip deserialize(serialize(sampleMsg)) run in sampleWorld,
projected to the resulting message. -/
def sampleRoundTrip : Message :=
  match Message.deserialize (Message.serialize sampleMsg) sampleWorld with
  | .ok (m, _) => m
  | .error _ => sampleMsg

example : sampleMsg.message_id = 0 := rfl
example : sampleMsg.conversation_id = 1 := rfl
example : sampleRoundTrip.message_id = 2 := rfl
example : sampleRoundTrip.content.val = sampleContent := rfl

/-- C1 counterexample: for the concrete valid message sampleMsg (built by
the constructor, message_id 0), deserialize(serialize(m)) yields a message
whose dictionary form differs from m's in the message_id field (the
constructor draws a fresh uuid), so the round trip does not carry every
field. -/
theorem C1_roundtrip_counterexample :
    sampleRoundTrip.to_dict.message_id ≠ sampleMsg.to_dict.message_id ∧
    sampleMsg.to_dict.message_id = 0 ∧ sampleRoundTrip.to_dict.message_id = 2 := by
  decide

/-- C1 (amended): for every valid message m and every world w,
deserialize(serialize(m)) succeeds and reproduces sender_id, receiver_id,
msg_type, content, priority, conversation_id and metadata of m's
dictionary form, but message_id and timestamp are regenerated by the
constructor (a fresh uuid and the current clock), not carried. -/
theorem C1_roundtrip_amended (m : Message) (w : World)
    (hs : m.sender_id ≠ "") (hr : m.receiver_id ≠ "")
    (hc : m.content.val.isEmpty = false) :
    (Message.deserialize (Message.serialize m) w).toOption.map (fun p => p.1.to_dict) =
      some { m.to_dict with message_id := w.nextUuid, timestamp := w.now } := by
  by_cases hmd : m.metadata.val.isEmpty
  · simp [Message.deserialize, Message.serialize, Message.to_dict, Message.init,
      World.allocDict, World.drawUuid, hs, hr, hc, hmd, Except.toOption,
      List.isEmpty_iff.mp hmd]
  · simp [Message.deserialize, Message.serialize, Message.to_dict, Message.init,
      World.allocDict, World.drawUuid, hs, hr, hc, hmd, Except.toOption]

/-- Witness for C1_roundtrip_amended at the concrete message sampleMsg and
world ⟨5, 7, 9⟩. -/
theorem C1_roundtrip_amended_witness :
    (Message.deserialize (Message.serialize sampleMsg) ⟨5, 7, 9⟩).toOption.map
        (fun p => p.1.to_dict) =
      some { sampleMsg.to_dict with message_id := 5, timestamp := 7 } :=
  C1_roundtrip_amended sampleMsg ⟨5, 7, 9⟩ (by decide) (by decide) (by decide)

/-- Python d.get(k, default) on a string-keyed dict. -/
def dictGetD (d : DictVal) (k : String) (dflt : JVal) : JVal :=
  ((dictLookup d k).getD dflt)

/-- Python d.get(k): missing keys give None (JVal.null). -/
def dictGet (d : DictVal) (k : String) : JVal :=
  dictGetD d k .null

namespace Agents

/-- TaskStatus from src/agents/task_engine.py. -/
inductive TaskStatus where
  | pending
  | assigned
  | in_progress
  | completed
  | failed
  | cancelled
deriving DecidableEq

/-- Task from src/agents/task_engine.py.  time.time() readings are
naturals from the World clock; Python None on the optional fields is
Option.none; result starts as Python None, embedded as JVal.null. -/
structure Task where
  task_id : String
  description : String
  payload : DictVal
  priority : Int
  creator_id : Option String
  assigned_agent : Option String
  status : TaskStatus
  created_at : Nat
  assigned_at : Option Nat
  completed_at : Option Nat
  result : JVal
  dependencies : List String

/-- Task.__init__:  self.task_id = task_id or str(uuid.uuid4()) — None and
the empty string are falsy, so both draw the supplied fresh uuid. -/
def Task.init (task_id : Option String) (freshId : String) (description : String)
    (payload : DictVal) (priority : Int) (creator_id assigned_agent : Option String)
    (now : Nat) : Task :=
  { task_id := match task_id with
      | some s => if s = "" then freshId else s
      | none => freshId,
    description := description, payload := payload, priority := priority,
    creator_id := creator_id, assigned_agent := assigned_agent,
    status := .pending, created_at := now, assigned_at := none,
    completed_at := none, result := .null, dependencies := [] }

/-- Task.assign_to: unconditional. -/
def Task.assign_to (t : Task) (agent_id : String) (now : Nat) : Task :=
  { t with assigned_agent := some agent_id, status := .assigned,
           assigned_at := some now }

/-- Task.start_execution: only moves ASSIGNED to IN_PROGRESS, otherwise a
no-op. -/
def Task.start_execution (t : Task) : Task :=
  if t.status = .assigned then { t with status := .in_progress } else t

/-- Task.complete: unconditional; result is whatever value is passed (the
inbound-message handler passes an arbitrary content value). -/
def Task.complete (t : Task) (result : JVal) (now : Nat) : Task :=
  { t with status := .completed, result := result, completed_at := some now }

/-- Task.fail: unconditional; result becomes the dict holding the error
value under the key "error". -/
def Task.fail (t : Task) (error : JVal) (now : Nat) : Task :=
  { t with status := .failed, result := .obj [("error", error)],
           completed_at := some now }

/-- Task.cancel: unconditional. -/
def Task.cancel (t : Task) (now : Nat) : Task :=
  { t with status := .cancelled, completed_at := some now }

/-- Task.add_dependency: append if not already present. -/
def Task.add_dependency (t : Task) (task_id : String) : Task :=
  if task_id ∈ t.dependencies then t
  else { t with dependencies := t.dependencies ++ [task_id] }

/-- A task processor: Task → result dict, possibly raising. -/
abbrev Processor := Task → Except String JVal

/-- TaskEngine state from src/agents/task_engine.py: the owning agent's
id, the local task store and the task-type → processor registry (both
Python dicts, embedded as insertion-ordered association lists). -/
structure TaskEngine where
  agentId : String
  tasks : List (String × Task)
  task_processors : List (String × Processor)

/-- TaskEngine._process_default_task: returns the fixed success dict. -/
def defaultProcessorFor (agentId : String) : Processor :=
  fun t => .ok (.obj [("status", .str "success"),
    ("result", .str ("Processed task: " ++ t.description)),
    ("processed_by", .str agentId)])

/-- TaskEngine.register_task_processor: dict assignment (the callable
check always passes for a Lean function). -/
def TaskEngine.register_task_processor (e : TaskEngine) (task_type : String)
    (p : Processor) : TaskEngine :=
  { e with task_processors := dictInsert task_type p e.task_processors }

/-- TaskEngine.__init__: empty task store, then _register_default_processors
installs the "default" processor.  (Message-handler registration on the
agent is modelled at the dispatch layer.) -/
def TaskEngine.init (agentId : String) : TaskEngine :=
  TaskEngine.register_task_processor
    { agentId := agentId, tasks := [], task_processors := [] }
    "default" (defaultProcessorFor agentId)

/-- The processor lookup inside TaskEngine._process_assigned_task:
task_type = task.payload.get("task_type", "default"); try the specific
processor, fall back to the "default" processor.  A non-string task_type
value matches no key of the string-keyed registry. -/
def TaskEngine.findProcessor (e : TaskEngine) (payload : DictVal) : Option Processor :=
  match (match dictGetD payload "task_type" (.str "default") with
    | .str s => dictLookup e.task_processors s
    | _ => none) with
  | some p => some p
  | none => dictLookup e.task_processors "default"

end Agents

namespace Agents

/-- Python indexing d[k]: KeyError when the key is absent. -/
def dictIndex (d : DictVal) (k : String) : Except String JVal :=
  match dictLookup d k with
  | some v => .ok v
  | none => .error ("KeyError: " ++ k)

/-- Read a value that this system only ever populates with a string;
Python would not check, the embedding makes the expectation explicit. -/
def jStr : JVal → Except String String
  | .str s => .ok s
  | _ => .error "TypeError: expected str"

/-- Read a value that is a string or Python None. -/
def jOptStr : JVal → Except String (Option String)
  | .str s => .ok (some s)
  | .null => .ok none
  | _ => .error "TypeError: expected str or None"

/-- Read an int value. -/
def jInt : JVal → Except String Int
  | .num n => .ok n
  | _ => .error "TypeError: expected int"

/-- Read a dict value. -/
def jObj : JVal → Except String DictVal
  | .obj fs => .ok fs
  | _ => .error "TypeError: expected dict"

/-- The dict literal returned by the acknowledgement branches of the
task-message handlers. -/
def ackDict : JVal := .obj [("status", .str "acknowledged")]

/-- TaskEngine._handle_task_assignment from src/agents/task_engine.py
lines 224-240: read the task dict out of the message (defaulting to an
empty dict, whose missing keys then raise KeyError), construct a Task
from its fields, replay its dependencies, and return the accepted dict.
The constructed task is dropped: self.tasks is never written by this
handler, so the engine state is returned unchanged. -/
def TaskEngine.handle_task_assignment (e : TaskEngine) (m : Message)
    (freshId : String) (now : Nat) : Except String (TaskEngine × JVal) := do
  let task_data ← jObj (dictGetD m.content.val "task" (.obj []))
  let tid ← jOptStr (← dictIndex task_data "task_id")
  let desc ← jStr (← dictIndex task_data "description")
  let payload ← jObj (← dictIndex task_data "payload")
  let prio ← jInt (← dictIndex task_data "priority")
  let creator ← jOptStr (← dictIndex task_data "creator_id")
  let assigned ← jOptStr (← dictIndex task_data "assigned_agent")
  let task0 := Task.init tid freshId desc payload prio creator assigned now
  let deps ← match dictGetD task_data "dependencies" (.arr []) with
    | .arr xs => xs.mapM jStr
    | _ => .error "TypeError: dependencies not iterable"
  let task := deps.foldl (fun t d => t.add_dependency d) task0
  return (e, .obj [("status", .str "accepted"), ("task_id", .str task.task_id)])

/-- TaskEngine._handle_task_completion, lines 242-252: if the task id
named in the message is a key of the local store, complete that task with
the message's result value; otherwise do nothing.  Always acknowledges. -/
def TaskEngine.handle_task_completion (e : TaskEngine) (m : Message)
    (now : Nat) : TaskEngine × JVal :=
  match dictGet m.content.val "task_id" with
  | .str tid =>
    match dictLookup e.tasks tid with
    | some t =>
      ({ e with tasks := dictInsert tid (t.complete (dictGet m.content.val "result") now) e.tasks },
       ackDict)
    | none => (e, ackDict)
  | _ => (e, ackDict)

/-- TaskEngine._handle_task_failure, lines 254-264: same shape as the
completion handler, failing the task with the message's error value. -/
def TaskEngine.handle_task_failure (e : TaskEngine) (m : Message)
    (now : Nat) : TaskEngine × JVal :=
  match dictGet m.content.val "task_id" with
  | .str tid =>
    match dictLookup e.tasks tid with
    | some t =>
      ({ e with tasks := dictInsert tid (t.fail (dictGet m.content.val "error") now) e.tasks },
       ackDict)
    | none => (e, ackDict)
  | _ => (e, ackDict)

/-- Python truthiness of task.creator_id: None and "" are falsy. -/
def Task.creatorTruthy (t : Task) : Option String :=
  match t.creator_id with
  | some c => if c = "" then none else some c
  | none => none

/-- TaskEngine._notify_task_completion: when the creator id is truthy,
construct a task_completion Message to the creator and route it.  The
constructor cannot fail here (sender and receiver are non-empty strings
and the content dict is non-empty), so its dead error branch is embedded
as producing no message. -/
def TaskEngine.notify_task_completion (e : TaskEngine) (w : World) (t : Task) :
    List Message × World :=
  match t.creatorTruthy with
  | some c =>
    let (cObj, w1) := w.allocDict [("task_id", .str t.task_id), ("result", t.result)]
    match Message.init w1 e.agentId c "task_completion" cObj 2 none none with
    | .ok (msg, w2) => ([msg], w2)
    | .error _ => ([], w)
  | none => ([], w)

/-- TaskEngine._notify_task_failure: as for completion, with the error
taken out of the task's result dict (task.result.get("error") when result
is set, otherwise the fixed unknown-error string). -/
def TaskEngine.notify_task_failure (e : TaskEngine) (w : World) (t : Task) :
    List Message × World :=
  match t.creatorTruthy with
  | some c =>
    let err := match t.result with
      | .obj fs => dictGet fs "error"
      | _ => .str "Unknown error"
    let (cObj, w1) := w.allocDict [("task_id", .str t.task_id), ("error", err)]
    match Message.init w1 e.agentId c "task_failure" cObj 2 none none with
    | .ok (msg, w2) => ([msg], w2)
    | .error _ => ([], w)
  | none => ([], w)

/-- The task_type string interpolated into the no-processor error text. -/
def taskTypeName (payload : DictVal) : String :=
  match dictGetD payload "task_type" (.str "default") with
  | .str s => s
  | _ => ""

/-- TaskEngine._process_assigned_task, lines 150-181: start execution,
find a processor (specific type, then "default"), run it; complete and
notify on success, fail and notify on a processor exception; the
no-processor branch fails the task with the "No processor found" error. -/
def TaskEngine.process_assigned_task (e : TaskEngine) (w : World) (t : Task) :
    Task × List Message × World :=
  let t1 := t.start_execution
  match e.findProcessor t1.payload with
  | some proc =>
    match proc t1 with
    | .ok result =>
      let t2 := t1.complete result w.now
      let (msgs, w2) := e.notify_task_completion w t2
      (t2, msgs, w2)
    | .error err =>
      let t2 := t1.fail (.str err) w.now
      let (msgs, w2) := e.notify_task_failure w t2
      (t2, msgs, w2)
  | none =>
    let t2 := t1.fail (.str ("No processor found for task type: " ++ taskTypeName t1.payload)) w.now
    let (msgs, w2) := e.notify_task_failure w t2
    (t2, msgs, w2)

/-- TaskEngine.submit_task, lines 121-130: store the task under its id;
if it is assigned to this engine's own agent, process it synchronously
(the store sees the processed task, since Python mutates the stored
object in place).  Returns the task id, the new engine state, the routed
notifications and the world. -/
def TaskEngine.submit_task (e : TaskEngine) (w : World) (t : Task) :
    String × TaskEngine × List Message × World :=
  let e1 : TaskEngine := { e with tasks := dictInsert t.task_id t e.tasks }
  if t.assigned_agent = some e.agentId then
    let r := e1.process_assigned_task w t
    (t.task_id, { e1 with tasks := dictInsert t.task_id r.1 e1.tasks }, r.2.1, r.2.2)
  else
    (t.task_id, e1, [], w)

/-- The public operations on a TaskEngine after construction: processor
registration, task submission, and the three inbound task messages. -/
inductive EngineOp where
  | register (task_type : String) (p : Processor)
  | submit (t : Task)
  | assignment (m : Message) (freshId : String)
  | completion (m : Message)
  | failure (m : Message)

/-- Apply one operation to an engine (a raising assignment handler leaves
the engine untouched: the dispatch wrapper catches the exception and the
handler had not written any state). -/
def TaskEngine.applyOp : TaskEngine × World → EngineOp → TaskEngine × World
  | (e, w), .register tt p => (e.register_task_processor tt p, w)
  | (e, w), .submit t =>
    let r := e.submit_task w t
    (r.2.1, r.2.2.2)
  | (e, w), .assignment m fid =>
    match e.handle_task_assignment m fid w.now with
    | .ok (e2, _) => (e2, w)
    | .error _ => (e, w)
  | (e, w), .completion m => ((e.handle_task_completion m w.now).1, w)
  | (e, w), .failure m => ((e.handle_task_failure m w.now).1, w)

/-- An engine as constructed and then driven by any sequence of public
operations. -/
def TaskEngine.runOps (agentId : String) (w : World) (ops : List EngineOp) :
    TaskEngine × World :=
  ops.foldl TaskEngine.applyOp (TaskEngine.init agentId, w)

end Agents

/-- Looking up in a dict after a Python dict assignment: the assigned key
sees the new value, every other key is untouched. -/
theorem dictInsert_lookup {β : Type} (k : String) (v : β) (d : List (String × β))
    (k2 : String) :
    dictLookup (dictInsert k v d) k2 = if k = k2 then some v else dictLookup d k2 := by
  induction d with
  | nil =>
    by_cases h : k = k2 <;> simp [dictInsert, dictLookup, h]
  | cons hd tl ih =>
    obtain ⟨k0, v0⟩ := hd
    by_cases h0 : k0 = k
    · subst h0
      by_cases h2 : k0 = k2 <;> simp [dictInsert, dictLookup, h2]
    · have hstep : dictInsert k v ((k0, v0) :: tl) = (k0, v0) :: dictInsert k v tl := by
        simp [dictInsert, h0]
      rw [hstep]
      by_cases h2 : k0 = k2
      · subst h2
        have hk : ¬ k = k0 := fun h => h0 h.symm
        simp [dictLookup, hk]
      · simp [dictLookup, h2, ih]

/-- A successful run of the task-assignment handler returns the engine
state it was given: the constructed task is never stored. -/
theorem handle_task_assignment_engine_unchanged
    (e : Agents.TaskEngine) (m : Message) (fid : String) (now : Nat)
    (e2 : Agents.TaskEngine) (j : JVal)
    (h : e.handle_task_assignment m fid now = .ok (e2, j)) : e2 = e := by
  unfold Agents.TaskEngine.handle_task_assignment at h
  simp only [bind, Except.bind, pure, Except.pure] at h
  repeat' split at h
  all_goals simp_all

/-- A fully populated task_assignment message for task "t1" addressed to
agent "bob" (the failing input for C2). -/
def assignContent : DictVal :=
  [("task", .obj [("task_id", .str "t1"), ("description", .str "demo"),
    ("payload", .obj [("k", .str "v")]), ("priority", .num 2),
    ("creator_id", .str "alice"), ("assigned_agent", .str "bob")])]

/-- The failing-input message itself. -/
def assignMsg : Message :=
  { message_id := 0, sender_id := "alice", receiver_id := "bob",
    msg_type := "task_assignment", content := ⟨assignContent, 0⟩,
    timestamp := 0, priority := 2, conversation_id := 0, metadata := ⟨[], 1⟩ }

/-- C2: evaluating the task-assignment handler of a freshly constructed
engine for agent "bob" on a fully populated task_assignment message for
task "t1": the handler returns the accepted dict naming "t1", yet the
engine comes back with its task store still empty — the task named in the
message was never recorded, contradicting the claim (and the spec's §4.4)
that a task_assignment mutates the local task store at that id.  The
completion and failure handlers behave as claimed (mutate when the id is
present, silent no-op otherwise); the assignment handler is the bug. -/
theorem C2_assignment_never_stores_task :
    (Agents.TaskEngine.init "bob").handle_task_assignment assignMsg "fresh" 5 =
      .ok (Agents.TaskEngine.init "bob",
           .obj [("status", .str "accepted"), ("task_id", .str "t1")]) ∧
    (Agents.TaskEngine.init "bob").tasks = [] ∧
    dictLookup (Agents.TaskEngine.init "bob").tasks "t1" = none := by
  refine ⟨rfl, rfl, rfl⟩

/-- A concrete task that has been assigned, started and completed. -/
def c3Completed : Agents.Task :=
  ((((Agents.Task.init (some "t1") "fresh" "demo" [("k", .null)] 2
      (some "alice") none 0).assign_to "bob" 1).start_execution).complete
    (.obj [("ok", .bool true)]) 2)

/-- C3 counterexample: a task driven to COMPLETED via assign_to,
start_execution, complete is not immutable — a subsequent fail call is
neither rejected nor a no-op: it overwrites the status with FAILED and
the result with the error dict. -/
theorem C3_terminal_counterexample :
    c3Completed.status = .completed ∧
    c3Completed.result = .obj [("ok", .bool true)] ∧
    (c3Completed.fail (.str "late failure") 3).status = .failed ∧
    (c3Completed.fail (.str "late failure") 3).status ≠ .completed ∧
    (c3Completed.fail (.str "late failure") 3).result =
      .obj [("error", .str "late failure")] := by
  refine ⟨rfl, rfl, rfl, by decide, rfl⟩

/-- C3 (amended): the only guarded transition of the Task state machine
is start_execution (IN_PROGRESS is reachable only from ASSIGNED, and
start_execution is a no-op from any other status); assign_to, complete,
fail and cancel are unconditional last-write-wins updates, so COMPLETED,
FAILED and CANCELLED are not terminal — a later fail or cancel overwrites
the status (and fail overwrites the result). -/
theorem C3_last_write_wins_amended (t : Agents.Task) (a : String) (r err : JVal)
    (n : Nat) :
    (t.assign_to a n).status = .assigned ∧
    (t.complete r n).status = .completed ∧
    (t.fail err n).status = .failed ∧
    (t.cancel n).status = .cancelled ∧
    (t.fail err n).result = .obj [("error", err)] ∧
    (t.cancel n).result = t.result ∧
    (t.status = .assigned → t.start_execution.status = .in_progress) ∧
    (t.status ≠ .assigned → t.start_execution = t) := by
  refine ⟨rfl, rfl, rfl, rfl, rfl, rfl, ?_, ?_⟩
  · intro h
    simp [Agents.Task.start_execution, h]
  · intro h
    simp [Agents.Task.start_execution, h]

/-- Witness for C3_last_write_wins_amended: instantiated at the concrete
completed task, discharging both guards (the completed task is not
ASSIGNED, so start_execution leaves it untouched; the freshly assigned
task is ASSIGNED, so start_execution moves it to IN_PROGRESS). -/
theorem C3_last_write_wins_amended_witness :
    (c3Completed.fail (.str "late failure") 3).status = .failed ∧
    c3Completed.start_execution = c3Completed := by
  refine ⟨(C3_last_write_wins_amended c3Completed "x" .null (.str "late failure") 3).2.2.1, ?_⟩
  exact (C3_last_write_wins_amended c3Completed "x" .null .null 3).2.2.2.2.2.2.2 (by decide)

/-- The completion handler never touches the processor registry. -/
theorem handle_task_completion_processors (e : Agents.TaskEngine) (m : Message)
    (now : Nat) :
    (e.handle_task_completion m now).1.task_processors = e.task_processors := by
  unfold Agents.TaskEngine.handle_task_completion
  repeat' split
  all_goals rfl

/-- The failure handler never touches the processor registry. -/
theorem handle_task_failure_processors (e : Agents.TaskEngine) (m : Message)
    (now : Nat) :
    (e.handle_task_failure m now).1.task_processors = e.task_processors := by
  unfold Agents.TaskEngine.handle_task_failure
  repeat' split
  all_goals rfl

/-- submit_task never touches the processor registry. -/
theorem submit_task_processors (e : Agents.TaskEngine) (w : World) (t : Agents.Task) :
    (e.submit_task w t).2.1.task_processors = e.task_processors := by
  unfold Agents.TaskEngine.submit_task
  split
  all_goals rfl

/-- One engine operation preserves the presence of the "default"
processor installed at construction: registration only inserts, no
operation removes a registry entry. -/
theorem applyOp_hasDefault (p : Agents.TaskEngine × World) (op : Agents.EngineOp)
    (h : (dictLookup p.1.task_processors "default").isSome) :
    (dictLookup (Agents.TaskEngine.applyOp p op).1.task_processors "default").isSome := by
  obtain ⟨e, w⟩ := p
  cases op with
  | register tt q =>
    simp only [Agents.TaskEngine.applyOp, Agents.TaskEngine.register_task_processor,
      dictInsert_lookup]
    by_cases htt : tt = "default" <;> simp [htt, h]
  | submit t =>
    simpa [Agents.TaskEngine.applyOp, submit_task_processors] using h
  | assignment m fid =>
    simp only [Agents.TaskEngine.applyOp]
    cases hres : e.handle_task_assignment m fid w.now with
    | ok pr =>
      obtain ⟨e2, j⟩ := pr
      have he : e2 = e := handle_task_assignment_engine_unchanged e m fid w.now e2 j hres
      subst he
      exact h
    | error msg => exact h
  | completion m =>
    simpa [Agents.TaskEngine.applyOp, handle_task_completion_processors] using h
  | failure m =>
    simpa [Agents.TaskEngine.applyOp, handle_task_failure_processors] using h

/-- The "default" processor is present in every reachable engine state. -/
theorem runOps_hasDefault (agentId : String) (w : World) (ops : List Agents.EngineOp) :
    (dictLookup (Agents.TaskEngine.runOps agentId w ops).1.task_processors "default").isSome := by
  have hgen : ∀ (l : List Agents.EngineOp) (p : Agents.TaskEngine × World),
      (dictLookup p.1.task_processors "default").isSome →
      (dictLookup (l.foldl Agents.TaskEngine.applyOp p).1.task_processors "default").isSome := by
    intro l
    induction l with
    | nil => intro p h; simpa using h
    | cons op rest ih =>
      intro p h
      exact ih _ (applyOp_hasDefault p op h)
  exact hgen ops _ (by simp [Agents.TaskEngine.init,
    Agents.TaskEngine.register_task_processor, dictInsert, dictLookup])

/-- C10: every TaskEngine installs a "default" processor at construction
and no public operation removes a registry entry, so after any sequence
of public operations the processor lookup performed by
_process_assigned_task (specific payload task_type, then "default")
always finds a processor: the "No processor found" failure branch is
unreachable. -/
theorem C10_no_processor_branch_unreachable (agentId : String) (w : World)
    (ops : List Agents.EngineOp) (payload : DictVal) :
    ((Agents.TaskEngine.runOps agentId w ops).1.findProcessor payload).isSome := by
  have h := runOps_hasDefault agentId w ops
  unfold Agents.TaskEngine.findProcessor
  split
  · simp
  · exact h

/-- AgentStatus from src/common/types.py. -/
inductive AgentStatus where
  | initializing
  | idle
  | active
  | busy
  | suspended
  | terminating
  | terminated
deriving DecidableEq

/-- A registered message handler: receives the message and sees (and may
mutate) the agent's status, and may raise.  The status argument it is
invoked with is whatever self.status holds at call time. -/
abbrev MsgHandler := Message → AgentStatus → Except String (JVal × AgentStatus)

/-- The per-agent dispatch state of BasicAgent (src/agents/agent_impl.py):
its id, current status and the type → handler map (self._message_handlers). -/
structure AgentState where
  agent_id : String
  status : AgentStatus
  handlers : List (String × MsgHandler)

/-- BasicAgent.register_handler: dict assignment, last registration for a
type wins. -/
def AgentState.register_handler (a : AgentState) (msg_type : String)
    (h : MsgHandler) : AgentState :=
  { a with handlers := dictInsert msg_type h a.handlers }

/-- BasicAgent.get_handler: map lookup. -/
def AgentState.get_handler (a : AgentState) (msg_type : String) : Option MsgHandler :=
  dictLookup a.handlers msg_type

/-- BasicAgent.handle_message, lines 65-104: capture the current status,
set BUSY, look up the handler for the message's type; invoke it (at BUSY)
and return its result, or return the structured no-handler error dict;
any handler exception is caught and converted to an error dict; the
finally block restores the captured previous status in every case,
overwriting whatever the handler set. -/
def AgentState.handle_message (a : AgentState) (m : Message) : JVal × AgentState :=
  let previous_status := a.status
  let outcome : JVal × AgentStatus :=
    match a.get_handler m.msg_type with
    | some handler =>
      match handler m .busy with
      | .ok (result, st) => (result, st)
      | .error e => (.obj [("status", .str "error"), ("message", .str e)], .busy)
    | none =>
      (.obj [("status", .str "error"),
             ("message", .str ("No handler for type " ++ m.msg_type))], .busy)
  (outcome.1, { a with status := previous_status })

/-- C5: the dispatch wrapper restores the previously captured status no
matter what the handler did (even if it mutated the status or raised),
leaves the handler map unchanged, invokes the type-matched handler at
status BUSY and returns its result, returns the structured no-handler
error dict when no handler is registered for the type, and converts a
raised handler exception into an error-result dict instead of
propagating it. -/
theorem C5_dispatch_wrapper (a : AgentState) (m : Message) :
    ((a.handle_message m).2.status = a.status) ∧
    ((a.handle_message m).2.handlers = a.handlers) ∧
    (a.get_handler m.msg_type = none →
      (a.handle_message m).1 =
        .obj [("status", .str "error"),
              ("message", .str ("No handler for type " ++ m.msg_type))]) ∧
    (∀ h, a.get_handler m.msg_type = some h →
      (∀ d st, h m .busy = .ok (d, st) → (a.handle_message m).1 = d) ∧
      (∀ e, h m .busy = .error e →
        (a.handle_message m).1 =
          .obj [("status", .str "error"), ("message", .str e)])) := by
  refine ⟨rfl, rfl, ?_, ?_⟩
  · intro hnone
    simp [AgentState.handle_message, hnone]
  · intro h hsome
    constructor
    · intro d st hok
      simp [AgentState.handle_message, hsome, hok]
    · intro e herr
      simp [AgentState.handle_message, hsome, herr]

/-- A handler that raises, and one that answers normally while flipping
the status, for the C5 witness. -/
def boomHandler : MsgHandler := fun _ _ => .error "boom"

/-- A handler that succeeds and leaves the agent SUSPENDED (as the system
suspend command does), to show the finally-restore clobbers it. -/
def suspendingHandler : MsgHandler :=
  fun _ _ => .ok (.obj [("status", .str "suspended")], .suspended)

/-- The concrete C5 agent: idle, with the two handlers registered. -/
def c5Agent : AgentState :=
  (AgentState.register_handler
    (AgentState.register_handler ⟨"a1", .idle, []⟩ "system" suspendingHandler)
    "chaos" boomHandler)

/-- A minimal message of a given type for the C5 witness. -/
def c5Msg (t : String) : Message :=
  { message_id := 0, sender_id := "s", receiver_id := "a1", msg_type := t,
    content := ⟨[("x", .null)], 0⟩, timestamp := 0, priority := 2,
    conversation_id := 0, metadata := ⟨[], 1⟩ }

/-- Witness for C5_dispatch_wrapper: on the raising handler the agent
returns the converted error dict and comes back idle; on the
status-mutating handler the finally-restore also brings it back to idle;
on an unknown type the structured no-handler error is returned. -/
theorem C5_dispatch_wrapper_witness :
    (c5Agent.handle_message (c5Msg "chaos")).1 =
      .obj [("status", .str "error"), ("message", .str "boom")] ∧
    (c5Agent.handle_message (c5Msg "chaos")).2.status = .idle ∧
    (c5Agent.handle_message (c5Msg "system")).2.status = .idle ∧
    (c5Agent.handle_message (c5Msg "nope")).1 =
      .obj [("status", .str "error"), ("message", .str ("No handler for type nope"))] := by
  refine ⟨((C5_dispatch_wrapper c5Agent (c5Msg "chaos")).2.2.2 boomHandler rfl).2 "boom" rfl,
    (C5_dispatch_wrapper c5Agent (c5Msg "chaos")).1.trans rfl,
    (C5_dispatch_wrapper c5Agent (c5Msg "system")).1.trans rfl,
    (C5_dispatch_wrapper c5Agent (c5Msg "nope")).2.2.1 rfl⟩

/-- ConsensusMethod from src/agents/collaboration.py. -/
inductive ConsensusMethod where
  | majority
  | unanimous
  | weighted
deriving DecidableEq

/-- sum(1 for v in votes.values() if v): the number of approving votes. -/
def approveVotes (votes : List (String × Bool)) : Nat :=
  (votes.filter (fun v => v.2)).length

/-- ConsensusMechanism._calculate_consensus_result, lines 361-375 of
src/agents/collaboration.py.  The vote dict is an association list
agent id → bool; only its values and length are read.  Python's float
divisions approve/len and len/2 are embedded as exact rational
arithmetic, with which they agree for any realistic vote count (both
sides are exactly representable below 2^52). -/
def calculate_consensus_result (votes : List (String × Bool))
    (method : ConsensusMethod) (total_participants : Nat) : Bool :=
  match method with
  | .unanimous => votes.all (fun v => v.2) && votes.length == total_participants
  | .weighted =>
    decide ((approveVotes votes : ℚ) / (votes.length : ℚ) > 1 / 2)
  | .majority =>
    decide ((approveVotes votes : ℚ) > (votes.length : ℚ) / 2)

/-- The spec's concrete vote set: three participants, votes true, true,
false. -/
def votes3 : List (String × Bool) := [("a", true), ("b", true), ("c", false)]

/-- C6: on votes {true, true, false} with 3 expected participants,
MAJORITY yields true (2 > 1.5) and UNANIMOUS yields false; in general
UNANIMOUS is true exactly when every expected participant's vote is
present (the code checks len(votes) == total, which under the stated
well-formedness of the vote dict — distinct voters drawn from the
participant roster — is equivalent) and all votes are true; MAJORITY is
true exactly when the approving votes strictly exceed half of the votes
received so far. -/
theorem C6_consensus_tally (votes : List (String × Bool)) (roster : List String)
    (n : Nat) (hsub : votes.map Prod.fst ⊆ roster)
    (hnd : (votes.map Prod.fst).Nodup) (hrnd : roster.Nodup) :
    calculate_consensus_result votes3 .majority 3 = true ∧
    calculate_consensus_result votes3 .unanimous 3 = false ∧
    (calculate_consensus_result votes .unanimous roster.length = true ↔
      ((∀ p ∈ roster, p ∈ votes.map Prod.fst) ∧ ∀ v ∈ votes, v.2 = true)) ∧
    (calculate_consensus_result votes .majority n = true ↔
      votes.length < 2 * approveVotes votes) := by
  refine ⟨?_, ?_, ?_, ?_⟩
  · norm_num [calculate_consensus_result, approveVotes, votes3]
  · decide
  · constructor
    · intro h
      simp only [calculate_consensus_result, Bool.and_eq_true, List.all_eq_true,
        beq_iff_eq] at h
      obtain ⟨hall, hlen⟩ := h
      have hsup : List.Subperm (votes.map Prod.fst) roster :=
        List.subperm_of_subset hnd hsub
      have hperm : (votes.map Prod.fst).Perm roster := by
        refine hsup.perm_of_length_le ?_
        simp [hlen]
      exact ⟨fun p hp => (hperm.mem_iff).mpr hp, fun v hv => hall v hv⟩
    · rintro ⟨hpres, hall⟩
      have hsup : List.Subperm (votes.map Prod.fst) roster :=
        List.subperm_of_subset hnd hsub
      have hsup2 : List.Subperm roster (votes.map Prod.fst) :=
        List.subperm_of_subset hrnd (fun p hp => hpres p hp)
      have hlen : (votes.map Prod.fst).length = roster.length :=
        Nat.le_antisymm hsup.length_le hsup2.length_le
      simp only [calculate_consensus_result, Bool.and_eq_true, List.all_eq_true,
        beq_iff_eq]
      refine ⟨fun v hv => hall v hv, by simpa using hlen⟩
  · simp only [calculate_consensus_result, decide_eq_true_eq]
    rw [gt_iff_lt, div_lt_iff₀ (by norm_num : (0 : ℚ) < 2)]
    constructor
    · intro h
      have h2 : (votes.length : ℚ) < 2 * (approveVotes votes : ℚ) := by linarith
      exact_mod_cast h2
    · intro h
      have h2 : (votes.length : ℚ) < 2 * (approveVotes votes : ℚ) := by exact_mod_cast h
      linarith

/-- Witness for C6_consensus_tally at the concrete vote set votes3 and
roster [a, b, c]. -/
theorem C6_consensus_tally_witness :
    calculate_consensus_result votes3 .majority 3 = true ∧
    calculate_consensus_result votes3 .unanimous 3 = false ∧
    (calculate_consensus_result votes3 .unanimous (["a", "b", "c"] : List String).length = true ↔
      ((∀ p ∈ (["a", "b", "c"] : List String), p ∈ votes3.map Prod.fst) ∧
        ∀ v ∈ votes3, v.2 = true)) ∧
    (calculate_consensus_result votes3 .majority 42 = true ↔
      votes3.length < 2 * approveVotes votes3) :=
  C6_consensus_tally votes3 ["a", "b", "c"] 42 (by decide) (by decide) (by decide)

/-- C7: on every non-empty vote map the WEIGHTED tally coincides with the
MAJORITY tally, for every expected-participant count — the two methods
are behaviorally identical (approve/len > 0.5 iff approve > len/2 once
len > 0). -/
theorem C7_weighted_equals_majority (votes : List (String × Bool))
    (n n2 : Nat) (hne : votes ≠ []) :
    calculate_consensus_result votes .weighted n =
      calculate_consensus_result votes .majority n2 := by
  have hlen : 0 < votes.length := List.length_pos.mpr hne
  have hq : (0 : ℚ) < (votes.length : ℚ) := by exact_mod_cast hlen
  simp only [calculate_consensus_result]
  rw [decide_eq_decide, gt_iff_lt, gt_iff_lt,
    div_lt_div_iff₀ (by norm_num : (0 : ℚ) < 2) hq,
    div_lt_iff₀ (by norm_num : (0 : ℚ) < 2)]
  constructor <;> intro h <;> linarith

/-- Witness for C7_weighted_equals_majority at votes3 (counts 3 and 5). -/
theorem C7_weighted_equals_majority_witness :
    calculate_consensus_result votes3 .weighted 3 =
      calculate_consensus_result votes3 .majority 5 :=
  C7_weighted_equals_majority votes3 3 5 (by decide)

/-- RoundRobinAllocation from src/agents/task_planner.py: the strategy
instance keeps the cursor last_agent_index across calls. -/
structure RoundRobinAllocation where
  last_agent_index : Nat

/-- The loop body of RoundRobinAllocation.allocate: each task in order is
assigned to agent_ids[cursor mod len] and the cursor advances by one (the
index is always in range, so Python's indexing never raises; getD's
default is dead). -/
def rrGo (agent_ids : List String) (now : Nat) (cursor : Nat) :
    List Agents.Task → List Agents.Task × Nat
  | [] => ([], cursor)
  | t :: rest =>
    let aid := agent_ids.getD (cursor % agent_ids.length) ""
    let r := rrGo agent_ids now (cursor + 1) rest
    (t.assign_to aid now :: r.1, r.2)

/-- RoundRobinAllocation.allocate, lines 122-132: with no agents the call
warns and returns with nothing assigned; otherwise every task is assigned
round-robin starting at the persisted cursor. -/
def RoundRobinAllocation.allocate (s : RoundRobinAllocation)
    (tasks : List Agents.Task) (agent_ids : List String) (now : Nat) :
    List Agents.Task × RoundRobinAllocation :=
  if agent_ids.isEmpty then (tasks, s)
  else
    let r := rrGo agent_ids now s.last_agent_index tasks
    (r.1, ⟨r.2⟩)

/-- rrGo preserves the task count. -/
theorem rrGo_length (agent_ids : List String) (now : Nat) :
    ∀ (tasks : List Agents.Task) (cursor : Nat),
      (rrGo agent_ids now cursor tasks).1.length = tasks.length := by
  intro tasks
  induction tasks with
  | nil => intro cursor; rfl
  | cons t rest ih => intro cursor; simp [rrGo, ih]

/-- rrGo advances the cursor by the number of tasks. -/
theorem rrGo_cursor (agent_ids : List String) (now : Nat) :
    ∀ (tasks : List Agents.Task) (cursor : Nat),
      (rrGo agent_ids now cursor tasks).2 = cursor + tasks.length := by
  intro tasks
  induction tasks with
  | nil => intro cursor; simp [rrGo]
  | cons t rest ih => intro cursor; simp [rrGo, ih]; omega

/-- A throwaway default task for index-based statements. -/
def dummyTask : Agents.Task :=
  Agents.Task.init (some "dummy") "fresh" "d" [("k", .null)] 2 none none 0

/-- rrGo assigns the i-th task to agent_ids[(cursor + i) mod len]. -/
theorem rrGo_getD (agent_ids : List String) (now : Nat) :
    ∀ (tasks : List Agents.Task) (cursor i : Nat), i < tasks.length →
      (rrGo agent_ids now cursor tasks).1.getD i dummyTask =
        (tasks.getD i dummyTask).assign_to
          (agent_ids.getD ((cursor + i) % agent_ids.length) "") now := by
  intro tasks
  induction tasks with
  | nil => intro cursor i hi; simp at hi
  | cons t rest ih =>
    intro cursor i hi
    cases i with
    | zero => simp [rrGo]
    | succ j =>
      have hj : j < rest.length := by simpa using hi
      have harg : cursor + 1 + j = cursor + (j + 1) := by omega
      have := ih (cursor + 1) j hj
      simp only [rrGo, List.getD_cons_succ]
      rw [this, harg]

/-- C9: with a non-empty roster, allocate assigns the i-th of M subtasks
(0-based) to the agent at index (cursor + i) mod N of the roster, and the
strategy instance comes back with its cursor advanced to cursor + M, so
the position persists across separate allocate calls. -/
theorem C9_round_robin (s : RoundRobinAllocation) (tasks : List Agents.Task)
    (agent_ids : List String) (now : Nat) (hne : agent_ids ≠ []) :
    ((s.allocate tasks agent_ids now).1.length = tasks.length) ∧
    ((s.allocate tasks agent_ids now).2.last_agent_index =
      s.last_agent_index + tasks.length) ∧
    (∀ i, i < tasks.length →
      (s.allocate tasks agent_ids now).1.getD i dummyTask =
        (tasks.getD i dummyTask).assign_to
          (agent_ids.getD ((s.last_agent_index + i) % agent_ids.length) "") now) := by
  have hem : agent_ids.isEmpty = false := by
    cases agent_ids with
    | nil => exact absurd rfl hne
    | cons a rest => rfl
  refine ⟨?_, ?_, ?_⟩
  · simp [RoundRobinAllocation.allocate, hem, rrGo_length]
  · simp [RoundRobinAllocation.allocate, hem, rrGo_cursor]
  · intro i hi
    simp only [RoundRobinAllocation.allocate, hem, Bool.false_eq_true, if_false]
    exact rrGo_getD agent_ids now tasks s.last_agent_index i hi

/-- Witness for C9_round_robin: cursor 1, three tasks, roster of two
agents — tasks 0, 1, 2 go to roster indices 1, 0, 1 and the cursor ends
at 4. -/
theorem C9_round_robin_witness :
    ((RoundRobinAllocation.mk 1).allocate [dummyTask, dummyTask, dummyTask]
        ["a", "b"] 7).1.length = 3 ∧
    ((RoundRobinAllocation.mk 1).allocate [dummyTask, dummyTask, dummyTask]
        ["a", "b"] 7).2.last_agent_index = 1 + 3 ∧
    ((RoundRobinAllocation.mk 1).allocate [dummyTask, dummyTask, dummyTask]
        ["a", "b"] 7).1.getD 0 dummyTask = dummyTask.assign_to "b" 7 ∧
    ((RoundRobinAllocation.mk 1).allocate [dummyTask, dummyTask, dummyTask]
        ["a", "b"] 7).1.getD 1 dummyTask = dummyTask.assign_to "a" 7 ∧
    ((RoundRobinAllocation.mk 1).allocate [dummyTask, dummyTask, dummyTask]
        ["a", "b"] 7).1.getD 2 dummyTask = dummyTask.assign_to "b" 7 := by
  have h := C9_round_robin ⟨1⟩ [dummyTask, dummyTask, dummyTask] ["a", "b"] 7 (by decide)
  refine ⟨h.1, h.2.1, ?_, ?_, ?_⟩
  · have := h.2.2 0 (by decide)
    simpa using this
  · have := h.2.2 1 (by decide)
    simpa using this
  · have := h.2.2 2 (by decide)
    simpa using this

/-- MessageRouter state from src/messaging/router.py: agent_id → topic
routes, agent_id → agent instance, group_id → member list, and the
ordered fallback handler list.  Fallback handlers are predicates on the
message (their Python side effects are outside the router's state). -/
structure MessageRouter where
  agent_routes : List (String × String)
  agent_instances : List (String × AgentState)
  group_routes : List (String × List String)
  fallback_handlers : List (Message → Bool)

/-- MessageRouter.register_agent: rejects empty ids/topics, then stores
the route (the bus subscription is outside this state). -/
def MessageRouter.register_agent (r : MessageRouter) (agent_id topic : String) :
    Except String MessageRouter :=
  if agent_id = "" ∨ topic = "" then
    .error "agent_id and topic cannot be empty"
  else
    .ok { r with agent_routes := dictInsert agent_id topic r.agent_routes }

/-- MessageRouter.register_agent_group: rejects empty inputs, stores a
copy of the member list. -/
def MessageRouter.register_agent_group (r : MessageRouter) (group_id : String)
    (agent_ids : List String) : Except String MessageRouter :=
  if group_id = "" ∨ agent_ids.isEmpty then
    .error "group_id and agent_ids cannot be empty"
  else
    .ok { r with group_routes := dictInsert group_id agent_ids r.group_routes }

/-- MessageRouter.add_fallback_handler: append (callable check always
passes for a Lean function). -/
def MessageRouter.add_fallback_handler (r : MessageRouter) (h : Message → Bool) :
    MessageRouter :=
  { r with fallback_handlers := r.fallback_handlers ++ [h] }

/-- Python str.startswith, structurally on the character list (Lean's
built-in String.startsWith is byte-position based and does not reduce in
the kernel; this is the same function on the same data). -/
def startsWithChars (pre s : List Char) : Bool :=
  match pre, s with
  | [], _ => true
  | _ :: _, [] => false
  | a :: pre2, b :: s2 => a == b && startsWithChars pre2 s2

/-- receiver.startswith("group:") in character terms. -/
def strStartsWith (s pre : String) : Bool :=
  startsWithChars pre.data s.data

/-- Python s[n:] in character terms. -/
def strDrop (s : String) (n : Nat) : String :=
  ⟨s.data.drop n⟩

/-- The fallback loop of route_message, lines 121-124: try handlers in
registration order, stop at the first one returning true.  Returns the
boolean outcome and the trace of invoked handler indices, in invocation
order (i is the index of the first handler tried). -/
def runFallbacksAux (m : Message) (i : Nat) :
    List (Message → Bool) → Bool × List Nat
  | [] => (false, [])
  | h :: rest =>
    if h m then (true, [i])
    else
      let r := runFallbacksAux m (i + 1) rest
      (r.1, i :: r.2)

/-- The fallback loop started at the head of the handler list. -/
def runFallbacks (handlers : List (Message → Bool)) (m : Message) : Bool × List Nat :=
  runFallbacksAux m 0 handlers

/-- What one call to route_message produced: the returned boolean, the
(topic, message) pairs handed to pubsub_bus.publish in order, the trace
of fallback handlers invoked, and the world after any copies were made. -/
structure RouteResult where
  delivered : Bool
  published : List (String × Message)
  fallbackTrace : List Nat
  world : World

/-- The group fan-out loop of route_message, lines 95-109: for each
member in order, skip it if it has no live route; otherwise build the
message copy through the Message constructor — same sender, the member
as receiver, same type, the content dict passed BY REFERENCE, same
priority, same conversation id, and metadata.copy() (a fresh dict object
with the same value) — and publish it to the member's topic. -/
def routeGroup (r : MessageRouter) (m : Message) :
    List String → World → Except String (List (String × Message) × World)
  | [], w => .ok ([], w)
  | aid :: rest, w =>
    match dictLookup r.agent_routes aid with
    | some topic =>
      let mdCopy := w.allocDict m.metadata.val
      match Message.init mdCopy.2 m.sender_id aid m.msg_type m.content m.priority
          (some m.conversation_id) (some mdCopy.1) with
      | .ok (msgCopy, w2) => do
        let res ← routeGroup r m rest w2
        return ((topic, msgCopy) :: res.1, res.2)
      | .error e => .error e
    | none => routeGroup r m rest w

/-- MessageRouter.route_message, lines 80-128.  Resolution order:
broadcast, registered group (an unregistered "group:..." receiver falls
through), registered single agent, fallback handlers, undeliverable
(returns false, no exception). -/
def MessageRouter.route_message (r : MessageRouter) (w : World) (m : Message) :
    Except String RouteResult :=
  if m.receiver_id = "broadcast" then
    .ok ⟨true, [("broadcast", m)], [], w⟩
  else
    match (if strStartsWith m.receiver_id "group:" then
        dictLookup r.group_routes (strDrop m.receiver_id 6) else none) with
    | some members => do
      let res ← routeGroup r m members w
      return ⟨true, res.1, [], res.2⟩
    | none =>
      match dictLookup r.agent_routes m.receiver_id with
      | some topic => .ok ⟨true, [(topic, m)], [], w⟩
      | none =>
        let fb := runFallbacks r.fallback_handlers m
        .ok ⟨fb.1, [], fb.2, w⟩

/-- The fallback loop, characterized: with k the index of the first
handler accepting m (k = length when none does), the loop returns true
iff k is a real index, and the handlers invoked are exactly 0..k (all of
them when none accepts), shifted by the starting index, in order. -/
theorem runFallbacksAux_spec (m : Message) :
    ∀ (handlers : List (Message → Bool)) (i : Nat),
      runFallbacksAux m i handlers =
        (decide (handlers.findIdx (fun h => h m) < handlers.length),
         (List.range (min (handlers.findIdx (fun h => h m) + 1) handlers.length)).map
           (fun x => x + i)) := by
  intro handlers
  induction handlers with
  | nil => intro i; simp [runFallbacksAux]
  | cons h rest ih =>
    intro i
    by_cases hh : h m
    · simp [runFallbacksAux, hh, List.findIdx_cons, List.range_succ]
    · have hh2 : h m = false := by simpa using hh
      simp only [runFallbacksAux]
      rw [if_neg hh, ih (i + 1)]
      simp only [List.findIdx_cons, hh2, Bool.cond_false, List.length_cons,
        Prod.mk.injEq]
      generalize rest.findIdx (fun h => h m) = k
      constructor
      · exact decide_eq_decide.mpr Nat.succ_lt_succ_iff.symm
      · have hmin : min (k + 1 + 1) (rest.length + 1) = min (k + 1) rest.length + 1 := by
          omega
        rw [hmin, List.range_succ_eq_map]
        simp only [List.map_cons, List.map_map, Nat.zero_add]
        refine congrArg (List.cons i) ?_
        refine List.map_congr_left (fun x hx => ?_)
        simp only [Function.comp_apply, Nat.succ_eq_add_one]
        omega

/-- C8: for a message whose receiver is not "broadcast", not a registered
group, and not a registered agent, route_message invokes the fallback
handlers in registration order, stops at the first one returning true and
returns true itself; when no handler accepts, every handler was tried and
the call returns false — an ok result, never an exception — and nothing
is published either way. -/
theorem C8_fallback_resolution (r : MessageRouter) (w : World) (m : Message)
    (hb : m.receiver_id ≠ "broadcast")
    (hg : strStartsWith m.receiver_id "group:" = true →
      dictLookup r.group_routes (strDrop m.receiver_id 6) = none)
    (ha : dictLookup r.agent_routes m.receiver_id = none) :
    r.route_message w m =
      .ok ⟨decide (r.fallback_handlers.findIdx (fun h => h m) <
              r.fallback_handlers.length),
           [],
           List.range (min (r.fallback_handlers.findIdx (fun h => h m) + 1)
             r.fallback_handlers.length),
           w⟩ ∧
    ((r.fallback_handlers.findIdx (fun h => h m) < r.fallback_handlers.length) ↔
      ∃ h ∈ r.fallback_handlers, h m = true) := by
  have hgroup : (if strStartsWith m.receiver_id "group:" then
      dictLookup r.group_routes (strDrop m.receiver_id 6) else none) = none := by
    by_cases hsw : strStartsWith m.receiver_id "group:" 
    · simp [hsw, hg hsw]
    · simp [hsw]
  constructor
  · unfold MessageRouter.route_message
    rw [if_neg hb, hgroup]
    simp only [ha, runFallbacks, runFallbacksAux_spec m r.fallback_handlers 0]
    simp
  · exact List.findIdx_lt_length

/-- Witness inputs for C8: a router with no routes and two fallback
handlers, the second of which accepts task messages. -/
def c8Router : MessageRouter :=
  { agent_routes := [("a1", "agent.a1")], agent_instances := [],
    group_routes := [("g", ["a1"])],
    fallback_handlers :=
      [fun m => m.msg_type == "audit", fun m => m.msg_type == "task"] }

/-- A message whose receiver resolves to no route in c8Router. -/
def c8Msg : Message :=
  { message_id := 0, sender_id := "s", receiver_id := "nobody",
    msg_type := "task", content := ⟨[("x", .null)], 0⟩, timestamp := 0,
    priority := 2, conversation_id := 0, metadata := ⟨[], 1⟩ }

/-- Witness for C8_fallback_resolution: both handlers run (trace [0, 1]),
the second accepts, the call returns true with nothing published. -/
theorem C8_fallback_resolution_witness :
    c8Router.route_message ⟨5, 5, 5⟩ c8Msg =
      .ok ⟨decide (c8Router.fallback_handlers.findIdx (fun h => h c8Msg) <
              c8Router.fallback_handlers.length),
           [],
           List.range (min (c8Router.fallback_handlers.findIdx (fun h => h c8Msg) + 1)
             c8Router.fallback_handlers.length),
           ⟨5, 5, 5⟩⟩ ∧
    ((c8Router.fallback_handlers.findIdx (fun h => h c8Msg) <
        c8Router.fallback_handlers.length) ↔
      ∃ h ∈ c8Router.fallback_handlers, h c8Msg = true) :=
  C8_fallback_resolution c8Router ⟨5, 5, 5⟩ c8Msg (by decide) (fun _ => rfl) rfl

/-- The constructor on the success path with an explicit conversation id
and metadata dict: fresh uuid, current time, and the metadata falsy-check
(an empty metadata dict is replaced by a freshly allocated empty dict). -/
theorem Message_init_ok (w : World) (s rcv mt : String) (c : DictObj) (pr : Nat)
    (conv : Nat) (md : DictObj)
    (hs : s ≠ "") (hr : rcv ≠ "") (hc : c.val.isEmpty = false) :
    Message.init w s rcv mt c pr (some conv) (some md) =
      .ok ({ message_id := w.nextUuid, sender_id := s, receiver_id := rcv,
             msg_type := mt, content := c, timestamp := w.now, priority := pr,
             conversation_id := conv,
             metadata := if md.val.isEmpty then ⟨[], w.nextObj⟩ else md },
           ⟨w.nextUuid + 1, w.now,
            if md.val.isEmpty then w.nextObj + 1 else w.nextObj⟩) := by
  by_cases hmd : md.val.isEmpty <;>
    simp [Message.init, hs, hr, hc, hmd, World.drawUuid, World.allocDict]

/-- What one group fan-out copy published as (topic, message) satisfies,
relative to the original message m and the world interval in which the
fan-out ran: it went to the receiver's own live topic; sender, type,
priority and conversation id are the original's; the content dict is the
very same object (same identity, not a copy); the metadata dict has the
original's value but a fresh identity; and the message id is a uuid drawn
during the fan-out. -/
def GroupCopyFacts (r : MessageRouter) (m : Message) (wLo wHi : World)
    (p : String × Message) : Prop :=
  dictLookup r.agent_routes p.2.receiver_id = some p.1 ∧
  p.2.sender_id = m.sender_id ∧
  p.2.msg_type = m.msg_type ∧
  p.2.priority = m.priority ∧
  p.2.conversation_id = m.conversation_id ∧
  p.2.content = m.content ∧
  p.2.metadata.val = m.metadata.val ∧
  wLo.nextObj ≤ p.2.metadata.objId ∧
  wLo.nextUuid ≤ p.2.message_id ∧ p.2.message_id < wHi.nextUuid

/-- Weakening the world interval of GroupCopyFacts. -/
theorem GroupCopyFacts.mono {r : MessageRouter} {m : Message}
    {w1 w2 w3 : World} {p : String × Message}
    (h : GroupCopyFacts r m w2 w3 p)
    (hu : w1.nextUuid ≤ w2.nextUuid) (ho : w1.nextObj ≤ w2.nextObj) :
    GroupCopyFacts r m w1 w3 p := by
  obtain ⟨h1, h2, h3, h4, h5, h6, h7, h8, h9, h10⟩ := h
  exact ⟨h1, h2, h3, h4, h5, h6, h7, le_trans ho h8, le_trans hu h9, h10⟩

/-- The group fan-out loop, characterized: it never raises (for a valid
original message over a router whose route keys are non-empty), publishes
exactly one copy per member with a live route in member order, every copy
satisfies GroupCopyFacts, and the drawn message ids are strictly
increasing (hence pairwise distinct). -/
theorem routeGroup_spec (r : MessageRouter) (m : Message)
    (hsender : m.sender_id ≠ "") (hcontent : m.content.val.isEmpty = false)
    (hkeys : ∀ aid topic, dictLookup r.agent_routes aid = some topic → aid ≠ "") :
    ∀ (members : List String) (w : World),
      ∃ pubs w2, routeGroup r m members w = .ok (pubs, w2) ∧
        w.nextUuid ≤ w2.nextUuid ∧ w.nextObj ≤ w2.nextObj ∧
        pubs.map (fun p => p.2.receiver_id) =
          members.filter (fun aid => (dictLookup r.agent_routes aid).isSome) ∧
        (∀ p ∈ pubs, GroupCopyFacts r m w w2 p) ∧
        (pubs.map (fun p => p.2.message_id)).Pairwise (fun a b => a < b) := by
  intro members
  induction members with
  | nil =>
    intro w
    exact ⟨[], w, rfl, le_refl _, le_refl _, rfl, by simp, by simp⟩
  | cons aid rest ih =>
    intro w
    cases hroute : dictLookup r.agent_routes aid with
    | none =>
      obtain ⟨pubs, w2, heq, hu, ho, hmap, hall, hpair⟩ := ih w
      refine ⟨pubs, w2, ?_, hu, ho, ?_, hall, hpair⟩
      · simp [routeGroup, hroute, heq]
      · simp [hroute, hmap]
    | some topic =>
      have haid : aid ≠ "" := hkeys aid topic hroute
      -- the world after metadata.copy(): one fresh dict object consumed
      have hinit := Message_init_ok ⟨w.nextUuid, w.now, w.nextObj + 1⟩ m.sender_id aid
        m.msg_type m.content m.priority m.conversation_id ⟨m.metadata.val, w.nextObj⟩
        hsender haid hcontent
      obtain ⟨pubs, w2, heq, hu, ho, hmap, hall, hpair⟩ :=
        ih ⟨w.nextUuid + 1, w.now,
          if m.metadata.val.isEmpty then w.nextObj + 1 + 1 else w.nextObj + 1⟩
      refine ⟨(topic, (⟨w.nextUuid, m.sender_id, aid, m.msg_type, m.content, w.now,
          m.priority, m.conversation_id,
          if m.metadata.val.isEmpty then ⟨[], w.nextObj + 1⟩
          else ⟨m.metadata.val, w.nextObj⟩⟩ : Message)) :: pubs, w2,
        ?_, ?_, ?_, ?_, ?_, ?_⟩
      · simp only [routeGroup, hroute, World.allocDict, hinit, Except.bind, bind, heq]
        by_cases hmd : m.metadata.val.isEmpty <;> simp_all <;> rfl
      · simp at hu; omega
      · by_cases hmd : m.metadata.val.isEmpty <;> simp_all <;> omega
      · simpa [hroute] using hmap
      · rintro ⟨a, b⟩ hab
        simp only [List.mem_cons, Prod.mk.injEq] at hab
        rcases hab with ⟨rfl, rfl⟩ | hab
        · refine ⟨by simpa using hroute, rfl, rfl, rfl, rfl, rfl, ?_, ?_, le_refl _, ?_⟩
          · by_cases hmd : m.metadata.val.isEmpty
            · simp [hmd, List.isEmpty_iff.mp hmd]
            · simp [hmd]
          · by_cases hmd : m.metadata.val.isEmpty <;> simp [hmd]
          · simp at hu ⊢; omega
        · have := hall (a, b) hab
          refine this.mono (by simp) ?_
          by_cases hmd : m.metadata.val.isEmpty <;> simp [hmd]
          omega
      · rw [List.map_cons, List.pairwise_cons]
        refine ⟨?_, hpair⟩
        intro b hb
        simp only [List.mem_map] at hb
        obtain ⟨p, hp, hpb⟩ := hb
        have h9 := (hall p hp).2.2.2.2.2.2.2.2.1
        simp at h9 hu hpb ⊢
        omega

/-- C4 (amended): routing to a registered group publishes, for each
member with a live route and in member order, an independent copy of the
message addressed to that member — distinct fresh message ids, the same
conversation id, a freshly copied metadata dict — but the content dict is
passed to each copy BY REFERENCE (same object identity, not a new copy);
nothing is published for non-members or members without a route, the call
returns true even when no member resolves, and no exception is raised. -/
theorem C4_group_fanout (r : MessageRouter) (w : World) (m : Message)
    (gid : String) (members : List String)
    (hb : m.receiver_id ≠ "broadcast")
    (hs : strStartsWith m.receiver_id "group:" = true)
    (hd : strDrop m.receiver_id 6 = gid)
    (hg : dictLookup r.group_routes gid = some members)
    (hsender : m.sender_id ≠ "")
    (hcontent : m.content.val.isEmpty = false)
    (hkeys : ∀ aid topic, dictLookup r.agent_routes aid = some topic → aid ≠ "")
    (hmid : m.message_id < w.nextUuid)
    (hmdid : m.metadata.objId < w.nextObj) :
    ∃ pubs w2, r.route_message w m = .ok ⟨true, pubs, [], w2⟩ ∧
      pubs.map (fun p => p.2.receiver_id) =
        members.filter (fun aid => (dictLookup r.agent_routes aid).isSome) ∧
      (∀ p ∈ pubs, GroupCopyFacts r m w w2 p ∧
        p.2.message_id ≠ m.message_id ∧
        p.2.metadata.objId ≠ m.metadata.objId) ∧
      (pubs.map (fun p => p.2.message_id)).Pairwise (fun x y => x ≠ y) := by
  obtain ⟨pubs, w2, heq, hu, ho, hmap, hall, hpair⟩ :=
    routeGroup_spec r m hsender hcontent hkeys members w
  refine ⟨pubs, w2, ?_, hmap, ?_, ?_⟩
  · unfold MessageRouter.route_message
    rw [if_neg hb]
    have hgs : (if strStartsWith m.receiver_id "group:" then
        dictLookup r.group_routes (strDrop m.receiver_id 6) else none) = some members := by
      simp [hs, hd, hg]
    rw [hgs]
    simp only [heq, bind, Except.bind]
    rfl
  · intro p hp
    have h := hall p hp
    refine ⟨h, ?_, ?_⟩
    · have h9 := h.2.2.2.2.2.2.2.2.1
      omega
    · have h8 := h.2.2.2.2.2.2.2.1
      omega
  · exact hpair.imp (fun hlt => Nat.ne_of_lt hlt)

/-- The concrete router for the C4 counterexample and witness: one live
agent route, one group with a routed member and an unrouted member. -/
def c4Router : MessageRouter :=
  { agent_routes := [("a1", "topic.a1")], agent_instances := [],
    group_routes := [("g", ["a1", "ghost"])], fallback_handlers := [] }

/-- The concrete original message for the C4 counterexample and witness:
its content dict has object identity 100 and its metadata identity 101. -/
def c4Msg : Message :=
  { message_id := 0, sender_id := "s", receiver_id := "group:g",
    msg_type := "task", content := ⟨[("k", .str "v")], 100⟩, timestamp := 0,
    priority := 3, conversation_id := 7, metadata := ⟨[("m", .null)], 101⟩ }

/-- C4 counterexample: routing c4Msg to group g delivers exactly one copy
(to the routed member a1, with fresh message id 1, the shared conversation
id 7, a fresh metadata object 200) whose content object identity is 100 —
the very object of the original message, not a new copy of the content
mapping, refuting the claim that each member copy carries a new copy of
the content. -/
theorem C4_content_shared_counterexample :
    (c4Router.route_message ⟨1, 9, 200⟩ c4Msg).toOption.map
        (fun res => res.published.map
          (fun p => (p.1, p.2.receiver_id, p.2.message_id, p.2.conversation_id,
            p.2.content.objId, p.2.metadata.objId))) =
      some [("topic.a1", "a1", 1, 7, 100, 200)] ∧
    c4Msg.content.objId = 100 ∧ c4Msg.metadata.objId = 101 := by
  refine ⟨rfl, rfl, rfl⟩

/-- Witness for C4_group_fanout at the concrete router, world and
message. -/
theorem C4_group_fanout_witness :
    ∃ pubs w2, c4Router.route_message ⟨1, 9, 200⟩ c4Msg = .ok ⟨true, pubs, [], w2⟩ ∧
      pubs.map (fun p => p.2.receiver_id) =
        (["a1", "ghost"] : List String).filter
          (fun aid => (dictLookup c4Router.agent_routes aid).isSome) ∧
      (∀ p ∈ pubs, GroupCopyFacts c4Router c4Msg ⟨1, 9, 200⟩ w2 p ∧
        p.2.message_id ≠ c4Msg.message_id ∧
        p.2.metadata.objId ≠ c4Msg.metadata.objId) ∧
      (pubs.map (fun p => p.2.message_id)).Pairwise (fun x y => x ≠ y) :=
  C4_group_fanout c4Router ⟨1, 9, 200⟩ c4Msg "g" ["a1", "ghost"]
    (by decide) (by decide) (by decide) rfl (by decide) (by decide)
    (fun aid topic h => by
      simp only [c4Router, dictLookup] at h
      split at h
      · rename_i heq
        subst heq
        decide
      · exact absurd h (by simp))
    (by decide) (by decide)
